import Mathlib

set_option linter.unusedVariables false

/-! Shallow embedding of the consistency/admission core of the rethinkdb
    repository: `src/store.hpp`, `src/store.cc` and `src/server/server.cc`.
    Machine integers are modelled as `Nat` with explicit `% 2 ^ w` at the
    points where C truncation matters. -/

/-- `typedef uint64_t cas_t` from `src/store.hpp`. -/
abbrev cas_t := Nat

/-- `typedef uint32_t mcflags_t` from `src/store.hpp`. -/
abbrev mcflags_t := Nat

/-- `typedef uint32_t exptime_t` from `src/store.hpp`. -/
abbrev exptime_t := Nat

/-- Modelled from the spec: `MAX_KEY_SIZE` is a fixed constant defined in a
    configuration header that is not under `src/`; the spec says keys have a
    "maximum length bounded by a fixed constant".  Its exact value is
    immaterial to the claims; 250 is used. -/
def MAX_KEY_SIZE : Nat := 250

/-- `store_key_t` from `src/store.hpp`: a length-prefixed byte sequence.
    `size` is a `uint8_t` length prefix, `contents` the bytes. -/
structure store_key_t where
  size : Nat
  contents : List Nat
deriving DecidableEq, Repr

/-- `str_to_key` from `src/store.hpp`: copies a NUL-terminated string into a
    key buffer when it fits.  The string is modelled as its byte list (so
    `strlen` is the list length), the out-parameter `buf` as a value that is
    returned updated or unchanged; the returned `Bool` is the C return value.
    The `(uint8_t) len` cast is the `% 256`. -/
def str_to_key (str : List Nat) (buf : store_key_t) : Bool × store_key_t :=
  let len := str.length
  if len ≤ MAX_KEY_SIZE then
    (true, { contents := str, size := len % 256 })
  else
    (false, buf)

/-- Modelled from the spec: `add_policy_t` is declared in a header not under
    `src/`; the spec says it is an add-policy enumeration
    (if-not-exists / always). -/
inductive add_policy_t where
  | add_if_not_exists : add_policy_t
  | add_always : add_policy_t
deriving DecidableEq, Repr

/-- Modelled from the spec: `replace_policy_t` is declared in a header not
    under `src/`; the spec says it is a replace-policy enumeration
    (if-exists / always). -/
inductive replace_policy_t where
  | replace_if_exists : replace_policy_t
  | replace_always : replace_policy_t
deriving DecidableEq, Repr

/-- Modelled from the spec: `incr_decr_kind_t` is declared in a header not
    under `src/`; the spec says it is a signed direction
    (increment / decrement). -/
inductive incr_decr_kind_t where
  | incr : incr_decr_kind_t
  | decr : incr_decr_kind_t
deriving DecidableEq, Repr

/-- Modelled from the spec: `append_prepend_kind_t` is declared in a header
    not under `src/`; the spec says it is a direction (append / prepend). -/
inductive append_prepend_kind_t where
  | append : append_prepend_kind_t
  | prepend : append_prepend_kind_t
deriving DecidableEq, Repr

/-- `get_cas_mutation_t`: field set as populated by
    `set_store_interface_t::get_cas` in `src/store.cc` (the declaring header
    is not under `src/`). -/
structure get_cas_mutation_t where
  key : store_key_t
deriving DecidableEq, Repr

/-- `sarc_mutation_t`: field set as populated by
    `set_store_interface_t::sarc` in `src/store.cc`.  The data provider is an
    abstract payload type `Data`. -/
structure sarc_mutation_t (Data : Type) where
  key : store_key_t
  data : Data
  flags : mcflags_t
  exptime : exptime_t
  add_policy : add_policy_t
  replace_policy : replace_policy_t
  old_cas : cas_t

/-- `delete_mutation_t`: field set as populated by
    `set_store_interface_t::delete_key` in `src/store.cc`. -/
structure delete_mutation_t where
  key : store_key_t
  dont_put_in_delete_queue : Bool
deriving DecidableEq, Repr

/-- `incr_decr_mutation_t`: field set as populated by
    `set_store_interface_t::incr_decr` in `src/store.cc`. -/
structure incr_decr_mutation_t where
  kind : incr_decr_kind_t
  key : store_key_t
  amount : Nat
deriving DecidableEq, Repr

/-- `append_prepend_mutation_t`: field set as populated by
    `set_store_interface_t::append_prepend` in `src/store.cc`. -/
structure append_prepend_mutation_t (Data : Type) where
  kind : append_prepend_kind_t
  key : store_key_t
  data : Data

/-- The `boost::variant` over the five mutation kinds visited by
    `mutation_get_key_functor_t` in `src/store.cc`. -/
inductive mutation_variant_t (Data : Type) where
  | get_cas : get_cas_mutation_t → mutation_variant_t Data
  | sarc : sarc_mutation_t Data → mutation_variant_t Data
  | delete : delete_mutation_t → mutation_variant_t Data
  | incr_decr : incr_decr_mutation_t → mutation_variant_t Data
  | append_prepend : append_prepend_mutation_t Data → mutation_variant_t Data

/-- `mutation_t`: carries the variant in its `mutation` member. -/
structure mutation_t (Data : Type) where
  mutation : mutation_variant_t Data

/-- `mutation_get_key_functor_t` from `src/store.cc`: one case per variant,
    each returning the variant's `key` member; no default branch. -/
def mutation_get_key_functor_t {Data : Type} :
    mutation_variant_t Data → store_key_t
  | .get_cas m => m.key
  | .sarc m => m.key
  | .delete m => m.key
  | .incr_decr m => m.key
  | .append_prepend m => m.key

/-- `mutation_t::get_key` from `src/store.cc`: applies the visitor to the
    stored variant. -/
def mutation_t.get_key {Data : Type} (self : mutation_t Data) : store_key_t :=
  mutation_get_key_functor_t self.mutation

/-- `get_result_t` from `src/store.hpp`: a possibly-NULL value buffer (the
    payload is the abstract `Data`), flags and a cas. -/
structure get_result_t (Data : Type) where
  buffer : Option Data
  flags : mcflags_t
  cas : cas_t

/-- `set_result_t` from `src/store.hpp`. -/
inductive set_result_t where
  | sr_stored : set_result_t
  | sr_not_stored : set_result_t
  | sr_not_found : set_result_t
  | sr_exists : set_result_t
  | sr_too_large : set_result_t
  | sr_data_provider_failed : set_result_t
  | sr_not_allowed : set_result_t
deriving DecidableEq, Repr

/-- The `result_t` enumeration inside `incr_decr_result_t` from
    `src/store.hpp`. -/
inductive incr_decr_result_code_t where
  | idr_success : incr_decr_result_code_t
  | idr_not_found : incr_decr_result_code_t
  | idr_not_numeric : incr_decr_result_code_t
  | idr_not_allowed : incr_decr_result_code_t
deriving DecidableEq, Repr

/-- `incr_decr_result_t` from `src/store.hpp`: a result code together with
    the new value (valid only on `idr_success`). -/
structure incr_decr_result_t where
  res : incr_decr_result_code_t
  new_value : Nat
deriving DecidableEq, Repr

/-- `append_prepend_result_t` from `src/store.hpp`. -/
inductive append_prepend_result_t where
  | apr_success : append_prepend_result_t
  | apr_too_large : append_prepend_result_t
  | apr_not_found : append_prepend_result_t
  | apr_data_provider_failed : append_prepend_result_t
  | apr_not_allowed : append_prepend_result_t
deriving DecidableEq, Repr

/-- `delete_result_t` from `src/store.hpp`. -/
inductive delete_result_t where
  | dr_deleted : delete_result_t
  | dr_not_found : delete_result_t
  | dr_not_allowed : delete_result_t
deriving DecidableEq, Repr

/-- The `boost::variant` carried in `mutation_result_t::result`, as
    extracted by the `boost::get<...>` calls in `src/store.cc`: one
    alternative per mutation kind. -/
inductive mutation_result_variant_t (Data : Type) where
  | get_res : get_result_t Data → mutation_result_variant_t Data
  | set_res : set_result_t → mutation_result_variant_t Data
  | incr_decr_res : incr_decr_result_t → mutation_result_variant_t Data
  | append_prepend_res : append_prepend_result_t → mutation_result_variant_t Data
  | delete_res : delete_result_t → mutation_result_variant_t Data

/-- `mutation_result_t`: carries the per-kind result variant in its
    `result` member (the declaring header is not under `src/`; the member
    name and alternatives are those used by `src/store.cc`). -/
structure mutation_result_t (Data : Type) where
  result : mutation_result_variant_t Data

/-- `boost::get<get_result_t>`: fallible extraction, `none` models the
    `boost::bad_get` fault on a mismatched alternative. -/
def boost_get_get_result {Data : Type} :
    mutation_result_variant_t Data → Option (get_result_t Data)
  | .get_res r => some r
  | _ => none

/-- `boost::get<set_result_t>`: fallible extraction. -/
def boost_get_set_result {Data : Type} :
    mutation_result_variant_t Data → Option set_result_t
  | .set_res r => some r
  | _ => none

/-- `boost::get<incr_decr_result_t>`: fallible extraction. -/
def boost_get_incr_decr_result {Data : Type} :
    mutation_result_variant_t Data → Option incr_decr_result_t
  | .incr_decr_res r => some r
  | _ => none

/-- `boost::get<append_prepend_result_t>`: fallible extraction. -/
def boost_get_append_prepend_result {Data : Type} :
    mutation_result_variant_t Data → Option append_prepend_result_t
  | .append_prepend_res r => some r
  | _ => none

/-- `boost::get<delete_result_t>`: fallible extraction. -/
def boost_get_delete_result {Data : Type} :
    mutation_result_variant_t Data → Option delete_result_t
  | .delete_res r => some r
  | _ => none

/-- `set_store_interface_t::get_cas` from `src/store.cc`.  The abstract
    virtual `change` method is passed as a function; `SG` models
    `sequence_group_t *`, `Tok` models `order_token_t`. -/
def set_store_interface_t.get_cas {Data SG Tok : Type}
    (change : SG → mutation_t Data → Tok → mutation_result_t Data)
    (seq_group : SG) (key : store_key_t) (token : Tok) :
    Option (get_result_t Data) :=
  let m : get_cas_mutation_t := { key := key }
  boost_get_get_result (change seq_group ⟨.get_cas m⟩ token).result

/-- `set_store_interface_t::sarc` from `src/store.cc`. -/
def set_store_interface_t.sarc {Data SG Tok : Type}
    (change : SG → mutation_t Data → Tok → mutation_result_t Data)
    (seq_group : SG) (key : store_key_t) (data : Data) (flags : mcflags_t)
    (exptime : exptime_t) (add_policy : add_policy_t)
    (replace_policy : replace_policy_t) (old_cas : cas_t) (token : Tok) :
    Option set_result_t :=
  let m : sarc_mutation_t Data :=
    { key := key, data := data, flags := flags, exptime := exptime,
      add_policy := add_policy, replace_policy := replace_policy,
      old_cas := old_cas }
  boost_get_set_result (change seq_group ⟨.sarc m⟩ token).result

/-- `set_store_interface_t::incr_decr` from `src/store.cc`. -/
def set_store_interface_t.incr_decr {Data SG Tok : Type}
    (change : SG → mutation_t Data → Tok → mutation_result_t Data)
    (seq_group : SG) (kind : incr_decr_kind_t) (key : store_key_t)
    (amount : Nat) (token : Tok) : Option incr_decr_result_t :=
  let m : incr_decr_mutation_t := { kind := kind, key := key, amount := amount }
  boost_get_incr_decr_result (change seq_group ⟨.incr_decr m⟩ token).result

/-- `set_store_interface_t::append_prepend` from `src/store.cc`. -/
def set_store_interface_t.append_prepend {Data SG Tok : Type}
    (change : SG → mutation_t Data → Tok → mutation_result_t Data)
    (seq_group : SG) (kind : append_prepend_kind_t) (key : store_key_t)
    (data : Data) (token : Tok) : Option append_prepend_result_t :=
  let m : append_prepend_mutation_t Data := { kind := kind, key := key, data := data }
  boost_get_append_prepend_result (change seq_group ⟨.append_prepend m⟩ token).result

/-- `set_store_interface_t::delete_key` from `src/store.cc`. -/
def set_store_interface_t.delete_key {Data SG Tok : Type}
    (change : SG → mutation_t Data → Tok → mutation_result_t Data)
    (seq_group : SG) (key : store_key_t) (token : Tok) (dont_put : Bool) :
    Option delete_result_t :=
  let m : delete_mutation_t := { key := key, dont_put_in_delete_queue := dont_put }
  boost_get_delete_result (change seq_group ⟨.delete m⟩ token).result

/-- `repli_timestamp_t`: a logical clock whose `time` member is a `uint32_t`
    (`timestamp.time` is cast to `uint64_t` and shifted by 32 in
    `src/store.cc`).  The declaring header is not under `src/`. -/
structure repli_timestamp_t where
  time : Nat
deriving DecidableEq, Repr

/-- `repli_timestamp_t::distant_past`, the smallest timestamp, used by the
    `timestamping_set_store_interface_t` constructor in `src/store.cc`. -/
def repli_timestamp_t.distant_past : repli_timestamp_t := ⟨0⟩

/-- `std::max` on `repli_timestamp_t`, comparing by the `time` member (the
    spec: `set_timestamp(ts)` advances the stored timestamp to
    `max(current, ts)`). -/
def repli_timestamp_max (a b : repli_timestamp_t) : repli_timestamp_t :=
  if a.time < b.time then b else a

/-- `castime_t`: the `(cas, timestamp)` pair built by `make_castime` in
    `src/store.cc`. -/
structure castime_t where
  proposed_cas : cas_t
  timestamp : repli_timestamp_t
deriving DecidableEq, Repr

/-- The mutable state of one `timestamping_set_store_interface_t` instance:
    `cas_counter` and `timestamp`.  Modelled from the spec: the member
    declarations live in a header not under `src/`; the spec says the cas
    packs the "timestamp's high bits" with the "counter's low bits", and
    `src/store.cc` casts `++cas_counter` up to `uint64_t`, so the counter is
    a 32-bit value kept `% 2 ^ 32`. -/
structure timestamping_state_t where
  cas_counter : Nat
  timestamp : repli_timestamp_t
deriving DecidableEq, Repr

/-- The `timestamping_set_store_interface_t` constructor from
    `src/store.cc`: counter 0, timestamp `distant_past`. -/
def timestamping_init : timestamping_state_t :=
  { cas_counter := 0, timestamp := repli_timestamp_t.distant_past }

/-- `timestamping_set_store_interface_t::make_castime` from `src/store.cc`:
    `cas_t cas = (uint64_t(timestamp.time) << 32) ^ uint64_t(++cas_counter)`,
    returning `castime_t(cas, timestamp)` and the updated instance state. -/
def make_castime (s : timestamping_state_t) : castime_t × timestamping_state_t :=
  let counter := (s.cas_counter + 1) % 2 ^ 32
  let cas : cas_t := (((s.timestamp.time % 2 ^ 32) <<< 32) ^^^ counter) % 2 ^ 64
  (⟨cas, s.timestamp⟩, { s with cas_counter := counter })

/-- `timestamping_set_store_interface_t::set_timestamp` from `src/store.cc`:
    `timestamp = std::max(timestamp, ts)`. -/
def set_timestamp (s : timestamping_state_t) (ts : repli_timestamp_t) :
    timestamping_state_t :=
  { s with timestamp := repli_timestamp_max s.timestamp ts }

/-- `timestamping_set_store_interface_t::change` from `src/store.cc`:
    `return target->change(seq_group, mutation, make_castime(), token)`.
    The underlying sink `target` is passed as the function `target_change`;
    the pair also returns the instance state after the embedded
    `make_castime()` call. -/
def timestamping_change {Data SG Tok : Type}
    (target_change : SG → mutation_t Data → castime_t → Tok → mutation_result_t Data)
    (s : timestamping_state_t) (seq_group : SG) (mutation : mutation_t Data)
    (token : Tok) : mutation_result_t Data × timestamping_state_t :=
  let (ct, s2) := make_castime s
  (target_change seq_group mutation ct token, s2)

/-- One externally visible call on a `timestamping_set_store_interface_t`
    instance: a `make_castime()` (performed by every `change`) or a
    `set_timestamp(ts)`. -/
inductive ts_event_t where
  | make : ts_event_t
  | set (ts : repli_timestamp_t) : ts_event_t
deriving DecidableEq, Repr

/-- One step of the instance state under a call, returning the castime the
    call hands out (if any). -/
def ts_step (s : timestamping_state_t) : ts_event_t →
    timestamping_state_t × Option castime_t
  | .make =>
    let (ct, s2) := make_castime s
    (s2, some ct)
  | .set ts => (set_timestamp s ts, none)

/-- A run of the instance over a call sequence: final state and the list of
    castimes handed out, in call order. -/
def ts_run (s : timestamping_state_t) : List ts_event_t →
    timestamping_state_t × List castime_t
  | [] => (s, [])
  | e :: es =>
    let (s2, out) := ts_step s e
    let (s3, outs) := ts_run s2 es
    (s3, out.toList ++ outs)

/-- Modelled from the spec: the gate state of one operation class of the
    gated store (`server/gated_store.hpp` is not under `src/`; `src/server/
    server.cc` only constructs `gated_get_store_t::open_t` /
    `gated_set_store_interface_t::open_t` values).  The spec describes a
    per-class boolean open/closed flag, an in-flight count, and a close that
    waits for the count to drain to zero. -/
structure gate_state_t where
  is_open : Bool
  inflight : Nat
  draining : Bool
deriving DecidableEq, Repr

/-- Modelled from the spec: the initial gate state is `CLOSED` with no
    in-flight operations. -/
def gate_init : gate_state_t := { is_open := false, inflight := 0, draining := false }

/-- The observable gate events: a successful `enter()`, a rejected
    `enter()`, a `leave()`, the `open_t` construction (`open_gate`), the
    start of the `open_t` destruction (`close_begin`: the gate stops
    admitting), and its completion after the drain (`close_finish`). -/
inductive gate_event_t where
  | enter_ok : gate_event_t
  | enter_failed : gate_event_t
  | leave : gate_event_t
  | open_gate : gate_event_t
  | close_begin : gate_event_t
  | close_finish : gate_event_t
deriving DecidableEq, Repr

/-- Modelled from the spec: one gate transition; `none` means the event is
    not enabled in the given state.  `enter()` succeeds exactly when the
    gate is open (incrementing the in-flight count) and is rejected exactly
    when it is closed; `leave()` decrements the count; `close_finish` (the
    return of the `open_t` destructor) requires the drain to have reached
    zero in-flight operations. -/
def gate_step (s : gate_state_t) : gate_event_t → Option gate_state_t
  | .enter_ok => if s.is_open then some { s with inflight := s.inflight + 1 } else none
  | .enter_failed => if s.is_open then none else some s
  | .leave => if s.inflight > 0 then some { s with inflight := s.inflight - 1 } else none
  | .open_gate =>
    if s.is_open ∨ s.draining then none
    else some { s with is_open := true }
  | .close_begin =>
    if s.is_open then some { s with is_open := false, draining := true } else none
  | .close_finish =>
    if s.draining ∧ s.inflight = 0 then some { s with draining := false } else none

/-- A run of the gate over an event sequence; `none` when some event was not
    enabled, i.e. the sequence is not a possible interleaving. -/
def gate_run (s : gate_state_t) : List gate_event_t → Option gate_state_t
  | [] => some s
  | e :: es =>
    match gate_step s e with
    | some s2 => gate_run s2 es
    | none => none

/-- `server_shutdown` from `src/server/server.cc`: swaps the thread pool's
    interrupt message for NULL and, if the old message was non-NULL,
    dispatches it.  The interrupt-message slot is the `Option Msg` state;
    the returned pair is (new slot state, message dispatched if any). -/
def server_shutdown {Msg : Type} (interrupt_message : Option Msg) :
    Option Msg × Option Msg :=
  let old_interrupt_msg := interrupt_message
  match old_interrupt_msg with
  | some m => (none, some m)
  | none => (none, none)

/-- `n` back-to-back `server_shutdown` calls: the final slot state and the
    messages actually dispatched, in call order. -/
def server_shutdown_seq {Msg : Type} (s : Option Msg) :
    Nat → Option Msg × List Msg
  | 0 => (s, [])
  | n + 1 =>
    let (s2, d) := server_shutdown s
    let (s3, ds) := server_shutdown_seq s2 n
    (s3, d.toList ++ ds)

/-- `NOT_A_SLAVE`: the distinguished replication-master-id marker value
    compared against in `src/server/server.cc`.  Modelled from the spec: the
    constant is defined in a replication header not under `src/`; its exact
    value is immaterial to the claims, `2 ^ 32 - 1` is used. -/
def NOT_A_SLAVE : Nat := 2 ^ 32 - 1

/-- Which non-slave branch of `server_main` is running (`src/server/
    server.cc`): the `replication_master_active` branch or the standalone
    branch. -/
inductive run_mode_t where
  | master : run_mode_t
  | standalone : run_mode_t
deriving DecidableEq, Repr

/-- The `fail_due_to_user_error` message of the master branch of
    `server_main` in `src/server/server.cc`. -/
def master_unslavify_error : String :=
  "This data file used to be for a replication slave. If this data file is used for a replication master, it will be impossible to later use it for a replication slave. If you are sure you want to irreversibly turn this into a non-slave data file, run again with the `--force-unslavify` flag."

/-- The `fail_due_to_user_error` message of the standalone branch of
    `server_main` in `src/server/server.cc`. -/
def standalone_unslavify_error : String :=
  "This data file used to be for a replication slave. If this data file is used for a standalone server, it will be impossible to later use it for a replication slave. If you are sure you want to irreversibly turn this into a non-slave data file, run again with the `--force-unslavify` flag."

/-- The role-marker guard of `server_main` (`src/server/server.cc`, master
    and standalone branches): reads `replication_master_id` from the store;
    if it is neither 0 nor `NOT_A_SLAVE` and `--force-unslavify` was not
    given, it aborts with a user error before `set_replication_master_id` is
    reached; otherwise it sets the marker to `NOT_A_SLAVE`.  The pair is
    (startup outcome, on-disk marker afterwards). -/
def unslavify_guard (mode : run_mode_t) (force_unslavify : Bool)
    (replication_master_id : Nat) : Except String Unit × Nat :=
  if replication_master_id ≠ 0 ∧ replication_master_id ≠ NOT_A_SLAVE ∧
      force_unslavify = false then
    (Except.error (match mode with
      | .master => master_unslavify_error
      | .standalone => standalone_unslavify_error), replication_master_id)
  else
    (Except.ok (), NOT_A_SLAVE)

/-- The `fail_due_to_user_error` message of the overwrite check of
    `server_main` in `src/server/server.cc`. -/
def overwrite_error : String :=
  "You are attempting to overwrite an existing file with a new RethinkDB database file. Pass option \"--force\" to ignore this warning. "

/-- The overwrite / auto-create check of `server_main` (`src/server/
    server.cc`): `db_files_exist` holds, per configured database file, the
    result of the `access(..., F_OK) == 0` existence test; `create_store`
    and `force_create` are the corresponding `cmd_config` flags.  Creation
    is auto-enabled when some file does not exist; an error aborts startup
    before any store is created or opened; on success the final
    `create_store` flag is returned. -/
def check_overwrite_and_autocreate (db_files_exist : List Bool)
    (create_store force_create : Bool) : Except String Bool :=
  let any_exist := db_files_exist.any (fun b => b)
  let any_dontexist := db_files_exist.any (fun b => !b)
  let create_store2 := create_store || any_dontexist
  if any_exist && create_store2 && !force_create then
    Except.error overwrite_error
  else
    Except.ok create_store2

/-! Theorems. -/

/-- C6: for every `mutation_t` value of any of the five variant kinds,
    `get_key()` returns exactly the key stored in that variant at
    construction, via a total match over all five kinds with no default
    branch. -/
theorem mutation_get_key_projection {Data : Type} (k : store_key_t) (d : Data)
    (fl : mcflags_t) (ex : exptime_t) (ap : add_policy_t)
    (rp : replace_policy_t) (oc : cas_t) (dq : Bool) (idk : incr_decr_kind_t)
    (amt : Nat) (apk : append_prepend_kind_t) :
    (⟨.get_cas ⟨k⟩⟩ : mutation_t Data).get_key = k ∧
    (⟨.sarc ⟨k, d, fl, ex, ap, rp, oc⟩⟩ : mutation_t Data).get_key = k ∧
    (⟨.delete ⟨k, dq⟩⟩ : mutation_t Data).get_key = k ∧
    (⟨.incr_decr ⟨idk, k, amt⟩⟩ : mutation_t Data).get_key = k ∧
    (⟨.append_prepend ⟨apk, k, d⟩⟩ : mutation_t Data).get_key = k :=
  ⟨rfl, rfl, rfl, rfl, rfl⟩

/-- C7: `timestamping_set_store_interface_t::change` performs no validation
    and no transformation: it returns exactly the result the underlying
    sink's `change` produces when invoked with the same sequence group,
    mutation and token plus the freshly minted castime, and its only state
    effect is that of `make_castime`. -/
theorem timestamping_change_forwards {Data SG Tok : Type}
    (target_change : SG → mutation_t Data → castime_t → Tok → mutation_result_t Data)
    (s : timestamping_state_t) (seq_group : SG) (mutation : mutation_t Data)
    (token : Tok) :
    timestamping_change target_change s seq_group mutation token =
      (target_change seq_group mutation (make_castime s).1 token,
       (make_castime s).2) :=
  rfl

/-- C9: `str_to_key(s, buf)` returns true iff `strlen(s) ≤ MAX_KEY_SIZE`;
    when true the key it builds has size `strlen(s)` and contents equal to
    `s` byte for byte; when false, `buf` is left unmodified. -/
theorem str_to_key_spec (str : List Nat) (buf : store_key_t) :
    ((str_to_key str buf).1 = true ↔ str.length ≤ MAX_KEY_SIZE) ∧
    ((str_to_key str buf).1 = true →
      (str_to_key str buf).2.size = str.length ∧
      (str_to_key str buf).2.contents = str) ∧
    ((str_to_key str buf).1 = false → (str_to_key str buf).2 = buf) := by
  unfold str_to_key
  by_cases h : str.length ≤ MAX_KEY_SIZE <;> simp [h]
  have h250 : MAX_KEY_SIZE = 250 := rfl
  omega

/-- C9 witness: a concrete two-byte string fits and round-trips, via
    `str_to_key_spec`. -/
theorem str_to_key_spec_witness :
    (str_to_key [104, 105] ⟨0, []⟩).1 = true ∧
    (str_to_key [104, 105] ⟨0, []⟩).2.size = 2 ∧
    (str_to_key [104, 105] ⟨0, []⟩).2.contents = [104, 105] := by
  have h := str_to_key_spec [104, 105] ⟨0, []⟩
  have ht : (str_to_key [104, 105] ⟨0, []⟩).1 = true := h.1.mpr (by decide)
  exact ⟨ht, (h.2.1 ht).1, (h.2.1 ht).2⟩

/-- C10: each `set_store_interface_t` convenience method constructs a
    mutation of the matching kind whose fields are exactly its arguments,
    forwards it to `change`, and returns the per-kind alternative extracted
    from the returned `mutation_result_t`; the extraction is defined (is
    `some`) exactly when the result carries the matching alternative. -/
theorem set_store_interface_forwarding {Data SG Tok : Type}
    (change : SG → mutation_t Data → Tok → mutation_result_t Data)
    (seq_group : SG) (key : store_key_t) (data : Data) (flags : mcflags_t)
    (exptime : exptime_t) (ap : add_policy_t) (rp : replace_policy_t)
    (old_cas : cas_t) (idk : incr_decr_kind_t) (amount : Nat)
    (apk : append_prepend_kind_t) (token : Tok) (dont_put : Bool) :
    (set_store_interface_t.get_cas change seq_group key token =
      boost_get_get_result (change seq_group ⟨.get_cas ⟨key⟩⟩ token).result) ∧
    (set_store_interface_t.sarc change seq_group key data flags exptime ap rp
        old_cas token =
      boost_get_set_result
        (change seq_group ⟨.sarc ⟨key, data, flags, exptime, ap, rp, old_cas⟩⟩
          token).result) ∧
    (set_store_interface_t.incr_decr change seq_group idk key amount token =
      boost_get_incr_decr_result
        (change seq_group ⟨.incr_decr ⟨idk, key, amount⟩⟩ token).result) ∧
    (set_store_interface_t.append_prepend change seq_group apk key data token =
      boost_get_append_prepend_result
        (change seq_group ⟨.append_prepend ⟨apk, key, data⟩⟩ token).result) ∧
    (set_store_interface_t.delete_key change seq_group key token dont_put =
      boost_get_delete_result
        (change seq_group ⟨.delete ⟨key, dont_put⟩⟩ token).result) ∧
    (∀ v : mutation_result_variant_t Data,
      (∀ r, boost_get_get_result v = some r ↔ v = .get_res r) ∧
      (∀ r, boost_get_set_result v = some r ↔ v = .set_res r) ∧
      (∀ r, boost_get_incr_decr_result v = some r ↔ v = .incr_decr_res r) ∧
      (∀ r, boost_get_append_prepend_result v = some r ↔
        v = .append_prepend_res r) ∧
      (∀ r, boost_get_delete_result v = some r ↔ v = .delete_res r)) := by
  refine ⟨rfl, rfl, rfl, rfl, rfl, ?_⟩
  intro v
  refine ⟨?_, ?_, ?_, ?_, ?_⟩ <;> intro r <;> cases v <;>
    simp [boost_get_get_result, boost_get_set_result,
      boost_get_incr_decr_result, boost_get_append_prepend_result,
      boost_get_delete_result]

/-- C4: with a slave role marker (neither 0 nor `NOT_A_SLAVE`), starting in
    master or standalone mode without `--force-unslavify` aborts with the
    branch's user error and leaves the on-disk marker untouched; with the
    flag, startup proceeds and the marker becomes `NOT_A_SLAVE`. -/
theorem role_marker_guard_spec (mode : run_mode_t) (force_unslavify : Bool)
    (marker : Nat) :
    (marker ≠ 0 → marker ≠ NOT_A_SLAVE → force_unslavify = false →
      (unslavify_guard mode force_unslavify marker).1 = Except.error
        (match mode with
         | .master => master_unslavify_error
         | .standalone => standalone_unslavify_error) ∧
      (unslavify_guard mode force_unslavify marker).2 = marker) ∧
    (force_unslavify = true →
      unslavify_guard mode force_unslavify marker =
        (Except.ok (), NOT_A_SLAVE)) := by
  unfold unslavify_guard
  constructor
  · intro h0 hn hf
    simp [h0, hn, hf]
  · intro hf
    simp [hf]

/-- C4 witness: marker 7 (a slave marker) aborts master startup without the
    flag, leaving the marker at 7, and succeeds standalone startup with it,
    via `role_marker_guard_spec`. -/
theorem role_marker_guard_spec_witness :
    (unslavify_guard run_mode_t.master false 7).1 =
      Except.error master_unslavify_error ∧
    (unslavify_guard run_mode_t.master false 7).2 = 7 ∧
    unslavify_guard run_mode_t.standalone true 7 =
      (Except.ok (), NOT_A_SLAVE) := by
  have h1 := (role_marker_guard_spec run_mode_t.master false 7).1
    (by decide) (by decide) rfl
  have h2 := (role_marker_guard_spec run_mode_t.standalone true 7).2 rfl
  exact ⟨h1.1, h1.2, h2⟩

/-- C8: when creation is requested (explicitly or auto-enabled because some
    configured file is missing) and some configured file exists and the
    force flag is absent, `server_main` aborts before creating or opening
    any store; when no configured file exists, creation is auto-enabled and
    no error is raised. -/
theorem overwrite_guard_spec (db_files_exist : List Bool)
    (create_store force_create : Bool) :
    ((create_store = true ∨ false ∈ db_files_exist) →
      true ∈ db_files_exist → force_create = false →
      check_overwrite_and_autocreate db_files_exist create_store force_create =
        Except.error overwrite_error) ∧
    (db_files_exist ≠ [] → (∀ b ∈ db_files_exist, b = false) →
      check_overwrite_and_autocreate db_files_exist create_store force_create =
        Except.ok true) := by
  constructor
  · intro hcre hex hfc
    unfold check_overwrite_and_autocreate
    have h1 : db_files_exist.any (fun b => b) = true :=
      List.any_eq_true.mpr ⟨true, hex, rfl⟩
    have h2 : (create_store || db_files_exist.any fun b => !b) = true := by
      rcases hcre with hc | hm
      · simp [hc]
      · have : db_files_exist.any (fun b => !b) = true :=
          List.any_eq_true.mpr ⟨false, hm, rfl⟩
        simp [this]
    simp [h1, h2, hfc]
  · intro hne hall
    unfold check_overwrite_and_autocreate
    have h1 : db_files_exist.any (fun b => b) = false := by
      rw [List.any_eq_false]
      intro x hx
      simp [hall x hx]
    have h2 : db_files_exist.any (fun b => !b) = true := by
      cases db_files_exist with
      | nil => exact absurd rfl hne
      | cons a l =>
        have ha : a = false := hall a (List.mem_cons_self a l)
        simp [ha]
    simp [h1, h2]

/-- C8 witness: one existing file with creation requested and no force flag
    aborts; one missing file auto-enables creation with no error, via
    `overwrite_guard_spec`. -/
theorem overwrite_guard_spec_witness :
    check_overwrite_and_autocreate [true] true false =
      Except.error overwrite_error ∧
    check_overwrite_and_autocreate [false] false false = Except.ok true := by
  have h1 := (overwrite_guard_spec [true] true false).1
    (Or.inl rfl) (by decide) rfl
  have h2 := (overwrite_guard_spec [false] false false).2
    (by decide) (by decide)
  exact ⟨h1, h2⟩

/-- `server_shutdown` applied to an empty interrupt slot does nothing:
    shared helper for the shutdown claims. -/
theorem server_shutdown_seq_of_none {Msg : Type} (n : Nat) :
    server_shutdown_seq (none : Option Msg) n = (none, []) := by
  induction n with
  | zero => rfl
  | succ m ih => simp [server_shutdown_seq, server_shutdown, ih]

/-- C5: shutdown is idempotent: the first `server_shutdown` empties the
    interrupt slot; a second call performs no dispatch; over any sequence of
    `n ≥ 1` back-to-back calls, exactly the initially pending message (if
    any) is dispatched, by the first call only. -/
theorem server_shutdown_idempotent {Msg : Type} (s : Option Msg) :
    (server_shutdown s).1 = none ∧
    server_shutdown ((server_shutdown s).1) =
      ((none : Option Msg), (none : Option Msg)) ∧
    (∀ n, 1 ≤ n → (server_shutdown_seq s n).2 = s.toList ∧
      (server_shutdown_seq s n).1 = none) := by
  refine ⟨?_, ?_, ?_⟩
  · cases s <;> rfl
  · cases s <;> rfl
  · intro n hn
    cases n with
    | zero => omega
    | succ m =>
      cases s <;>
        simp [server_shutdown_seq, server_shutdown, server_shutdown_seq_of_none]

/-- C5 witness: with message 3 pending, two back-to-back shutdown calls
    dispatch exactly `[3]`, via `server_shutdown_idempotent`. -/
theorem server_shutdown_idempotent_witness :
    (server_shutdown_seq (some 3) 2).2 = [3] ∧
    (server_shutdown_seq (some 3) 2).1 = none :=
  (server_shutdown_idempotent (some 3)).2.2 2 (by norm_num)

/-- A closed gate stays closed across any enabled step other than
    `open_gate`: shared helper for the gate claims. -/
theorem gate_step_closed_preserved (s s2 : gate_state_t) (e : gate_event_t)
    (hstep : gate_step s e = some s2) (hne : e ≠ gate_event_t.open_gate)
    (hclosed : s.is_open = false) : s2.is_open = false := by
  cases e with
  | enter_ok => simp [gate_step, hclosed] at hstep
  | enter_failed =>
    simp [gate_step, hclosed] at hstep
    simp [← hstep, hclosed]
  | leave =>
    simp [gate_step] at hstep
    obtain ⟨h1, h2⟩ := hstep
    simp [← h2, hclosed]
  | open_gate => exact absurd rfl hne
  | close_begin => simp [gate_step, hclosed] at hstep
  | close_finish =>
    simp [gate_step] at hstep
    obtain ⟨h1, h2⟩ := hstep
    simp [← h2, hclosed]

/-- In a valid run from a closed gate containing no `open_gate`, no
    `enter()` succeeds: shared helper for the gate claims. -/
theorem gate_run_closed_no_enter (es : List gate_event_t) :
    ∀ s s2 : gate_state_t, s.is_open = false → gate_run s es = some s2 →
      gate_event_t.open_gate ∉ es → gate_event_t.enter_ok ∉ es := by
  induction es with
  | nil => intro s s2 _ _ _; simp
  | cons e rest ih =>
    intro s s2 hclosed hrun hno
    rw [List.mem_cons, not_or] at hno
    obtain ⟨hno1, hno2⟩ := hno
    simp only [gate_run] at hrun
    cases hstep : gate_step s e with
    | none => rw [hstep] at hrun; exact absurd hrun (by simp)
    | some s1 =>
      rw [hstep] at hrun
      have hne : e ≠ gate_event_t.enter_ok := by
        intro he
        rw [he] at hstep
        simp [gate_step, hclosed] at hstep
      have hcl1 : s1.is_open = false :=
        gate_step_closed_preserved s s1 e hstep (fun h => hno1 h.symm) hclosed
      rw [List.mem_cons, not_or]
      exact ⟨fun h => hne h.symm, ih s1 s2 hcl1 hrun hno2⟩

/-- Along any valid run, the in-flight count changes by exactly the number
    of successful enters minus the number of leaves: shared helper for the
    gate claims. -/
theorem gate_run_inflight_count (es : List gate_event_t) :
    ∀ s s2 : gate_state_t, gate_run s es = some s2 →
      s2.inflight + es.count gate_event_t.leave =
        s.inflight + es.count gate_event_t.enter_ok := by
  induction es with
  | nil =>
    intro s s2 hrun
    simp [gate_run] at hrun
    simp [← hrun]
  | cons e rest ih =>
    intro s s2 hrun
    simp only [gate_run] at hrun
    cases hstep : gate_step s e with
    | none => rw [hstep] at hrun; exact absurd hrun (by simp)
    | some s1 =>
      rw [hstep] at hrun
      have hrest := ih s1 s2 hrun
      cases e <;> simp [gate_step] at hstep
      case enter_ok =>
        obtain ⟨ho, h1⟩ := hstep
        simp [List.count_cons, ← h1] at hrest ⊢
        omega
      case enter_failed =>
        obtain ⟨ho, h1⟩ := hstep
        simp [List.count_cons, ← h1] at hrest ⊢
        omega
      case leave =>
        obtain ⟨ho, h1⟩ := hstep
        simp [List.count_cons, ← h1] at hrest ⊢
        omega
      case open_gate =>
        obtain ⟨ho, h1⟩ := hstep
        simp [List.count_cons, ← h1] at hrest ⊢
        omega
      case close_begin =>
        obtain ⟨ho, h1⟩ := hstep
        simp [List.count_cons, ← h1] at hrest ⊢
        omega
      case close_finish =>
        obtain ⟨⟨hd, hz⟩, h1⟩ := hstep
        simp [List.count_cons, ← h1] at hrest ⊢
        omega

/-- A valid run decomposes at its last event: shared helper for the gate
    claims. -/
theorem gate_run_append_last (es : List gate_event_t) :
    ∀ (e : gate_event_t) (s s2 : gate_state_t),
      gate_run s (es ++ [e]) = some s2 →
      ∃ s1, gate_run s es = some s1 ∧ gate_step s1 e = some s2 := by
  induction es with
  | nil =>
    intro e s s2 hrun
    simp only [List.nil_append, gate_run] at hrun
    cases hstep : gate_step s e with
    | none => rw [hstep] at hrun; exact absurd hrun (by simp)
    | some s1 =>
      rw [hstep] at hrun
      simp [gate_run] at hrun
      exact ⟨s, rfl, by rw [hstep, hrun]⟩
  | cons f rest ih =>
    intro e s s2 hrun
    simp only [List.cons_append, gate_run] at hrun
    cases hstep : gate_step s f with
    | none => rw [hstep] at hrun; exact absurd hrun (by simp)
    | some s1 =>
      rw [hstep] at hrun
      obtain ⟨sm, hm1, hm2⟩ := ih e s1 s2 hrun
      exact ⟨sm, by simp [gate_run, hstep, hm1], hm2⟩

/-- C3: once the gate is closed, every subsequent `enter()` is rejected
    until the gate is reopened (a closed state disables `enter_ok`, enables
    the rejection, and a valid run without `open_gate` admits nothing); and
    no admitted operation is abandoned by a close: the in-flight count
    always equals successful enters minus leaves, and a run whose last event
    is the completion of an `open_t` exit (`close_finish`, which requires
    the drain to have reached zero) has every admitted operation matched by
    a `leave()`. -/
theorem gated_store_admission :
    (∀ s : gate_state_t, s.is_open = false →
      gate_step s gate_event_t.enter_ok = none ∧
      gate_step s gate_event_t.enter_failed = some s) ∧
    (∀ (es : List gate_event_t) (s s2 : gate_state_t), s.is_open = false →
      gate_run s es = some s2 → gate_event_t.open_gate ∉ es →
      gate_event_t.enter_ok ∉ es) ∧
    (∀ (es : List gate_event_t) (s2 : gate_state_t),
      gate_run gate_init es = some s2 →
      s2.inflight + es.count gate_event_t.leave =
        es.count gate_event_t.enter_ok) ∧
    (∀ (es : List gate_event_t) (s2 : gate_state_t),
      gate_run gate_init (es ++ [gate_event_t.close_finish]) = some s2 →
      (es ++ [gate_event_t.close_finish]).count gate_event_t.enter_ok =
        (es ++ [gate_event_t.close_finish]).count gate_event_t.leave) := by
  refine ⟨?_, ?_, ?_, ?_⟩
  · intro s hclosed
    constructor <;> simp [gate_step, hclosed]
  · intro es s s2 hclosed hrun hno
    exact gate_run_closed_no_enter es s s2 hclosed hrun hno
  · intro es s2 hrun
    have h := gate_run_inflight_count es gate_init s2 hrun
    simpa [gate_init] using h
  · intro es s2 hrun
    obtain ⟨s1, hrun1, hstep1⟩ := gate_run_append_last es _ _ _ hrun
    have hz : s1.inflight = 0 := by
      by_cases hd : s1.draining ∧ s1.inflight = 0
      · exact hd.2
      · simp [gate_step, hd] at hstep1
    have hcount := gate_run_inflight_count es gate_init s1 hrun1
    simp [gate_init] at hcount
    simp [List.count_append, List.count_cons]
    omega

/-- C3 witness: the interleaving open, enter, enter, leave, close-begin,
    leave, close-finish is valid, admits two operations, and both leave
    before the close completes, via `gated_store_admission`. -/
theorem gated_store_admission_witness :
    ([gate_event_t.open_gate, gate_event_t.enter_ok, gate_event_t.enter_ok,
        gate_event_t.leave, gate_event_t.close_begin, gate_event_t.leave] ++
      [gate_event_t.close_finish]).count gate_event_t.enter_ok =
    ([gate_event_t.open_gate, gate_event_t.enter_ok, gate_event_t.enter_ok,
        gate_event_t.leave, gate_event_t.close_begin, gate_event_t.leave] ++
      [gate_event_t.close_finish]).count gate_event_t.leave :=
  gated_store_admission.2.2.2
    [gate_event_t.open_gate, gate_event_t.enter_ok, gate_event_t.enter_ok,
      gate_event_t.leave, gate_event_t.close_begin, gate_event_t.leave]
    { is_open := false, inflight := 0, draining := false } (by decide)


/-- Unfolding equation for a run starting with a `make_castime` call:
    shared helper for the castime claims. -/
theorem ts_run_make_cons (s : timestamping_state_t) (es : List ts_event_t) :
    ts_run s (ts_event_t.make :: es) =
      ((ts_run (make_castime s).2 es).1,
        (make_castime s).1 :: (ts_run (make_castime s).2 es).2) := rfl

/-- Unfolding equation for a run starting with a `set_timestamp` call:
    shared helper for the castime claims. -/
theorem ts_run_set_cons (s : timestamping_state_t) (ts : repli_timestamp_t)
    (es : List ts_event_t) :
    ts_run s (ts_event_t.set ts :: es) = ts_run (set_timestamp s ts) es := rfl

/-- Low 32 bits of the cas computation: XORing the shifted timestamp onto a
    sub-32-bit counter leaves the counter in the low bits.  Shared helper
    for the castime claims. -/
theorem cas_low_bits (a c : Nat) (hc : c < 2 ^ 32) :
    (((a <<< 32) ^^^ c) % 2 ^ 64) % 2 ^ 32 = c := by
  have h1 : (((a <<< 32) ^^^ c) % 2 ^ 64) % 2 ^ 32 =
      ((a <<< 32) ^^^ c) % 2 ^ 32 :=
    Nat.mod_mod_of_dvd _ (by norm_num)
  rw [h1]
  apply Nat.eq_of_testBit_eq
  intro i
  rw [Nat.testBit_mod_two_pow, Nat.testBit_xor, Nat.testBit_shiftLeft]
  by_cases hi : i < 32
  · have h32 : ¬ 32 ≤ i := by omega
    simp [hi, h32]
  · have hci : c < 2 ^ i :=
      lt_of_lt_of_le hc (Nat.pow_le_pow_right (by norm_num) (by omega))
    simp [hi, Nat.testBit_lt_two_pow hci]

/-- The cas handed out by one `make_castime` call carries the incremented
    counter in its low 32 bits: shared helper for the castime claims. -/
theorem make_castime_cas_mod (s : timestamping_state_t) :
    (make_castime s).1.proposed_cas % 2 ^ 32 = (s.cas_counter + 1) % 2 ^ 32 := by
  have hc : (s.cas_counter + 1) % 2 ^ 32 < 2 ^ 32 :=
    Nat.mod_lt _ (by norm_num)
  exact cas_low_bits (s.timestamp.time % 2 ^ 32) _ hc

/-- The counter value woven into each handed-out cas: the `k`-th castime of
    any valid run carries, in the low 32 bits of its cas, the counter at the
    start of the run plus `k + 1`, mod `2 ^ 32`.  Shared helper for the
    castime claims. -/
theorem ts_run_output_cas_mod (es : List ts_event_t) :
    ∀ s : timestamping_state_t,
    ∀ k ct, ((ts_run s es).2).get? k = some ct →
      ct.proposed_cas % 2 ^ 32 = (s.cas_counter + k + 1) % 2 ^ 32 := by
  induction es with
  | nil =>
    intro s k ct hget
    simp [ts_run] at hget
  | cons e rest ih =>
    intro s k ct hget
    cases e with
    | make =>
      rw [ts_run_make_cons] at hget
      cases k with
      | zero =>
        rw [List.get?_cons_zero, Option.some.injEq] at hget
        rw [← hget, make_castime_cas_mod]
      | succ k2 =>
        rw [List.get?_cons_succ] at hget
        have h := ih (make_castime s).2 k2 ct hget
        have hcnt : (make_castime s).2.cas_counter =
            (s.cas_counter + 1) % 2 ^ 32 := rfl
        rw [hcnt, add_assoc, Nat.mod_add_mod] at h
        rw [h]
        congr 1
        omega
    | set ts =>
      rw [ts_run_set_cons] at hget
      have h := ih (set_timestamp s ts) k ct hget
      have hcnt : (set_timestamp s ts).cas_counter = s.cas_counter := rfl
      rw [hcnt] at h
      exact h

/-- In a run of `make_castime` calls only, starting from a state with
    timestamp 0, the `k`-th castime is exactly the counter value
    `start + k + 1` mod `2 ^ 32`, stamped with timestamp 0.  Shared helper
    for the castime claims. -/
theorem ts_run_make_outputs (n : Nat) :
    ∀ s : timestamping_state_t, s.timestamp = ⟨0⟩ →
    ∀ k, k < n →
      ((ts_run s (List.replicate n ts_event_t.make)).2).get? k =
        some ⟨(s.cas_counter + k + 1) % 2 ^ 32, s.timestamp⟩ := by
  induction n with
  | zero => intro s ht k hk; omega
  | succ m ih =>
    intro s ht k hk
    rw [List.replicate_succ, ts_run_make_cons]
    have hct : (make_castime s).1 =
        ⟨(((s.timestamp.time % 2 ^ 32) <<< 32) ^^^ ((s.cas_counter + 1) % 2 ^ 32))
          % 2 ^ 64, s.timestamp⟩ := rfl
    have hc : (s.cas_counter + 1) % 2 ^ 32 < 2 ^ 32 :=
      Nat.mod_lt _ (by norm_num)
    cases k with
    | zero =>
      rw [List.get?_cons_zero, Option.some.injEq, hct]
      have hcas : (((s.timestamp.time % 2 ^ 32) <<< 32) ^^^
          ((s.cas_counter + 1) % 2 ^ 32)) % 2 ^ 64 =
          (s.cas_counter + 1) % 2 ^ 32 := by
        rw [ht]
        simp only [Nat.zero_mod, Nat.zero_shiftLeft, Nat.zero_xor]
        exact Nat.mod_eq_of_lt (lt_trans hc (by norm_num))
      rw [hcas]
    | succ k2 =>
      rw [List.get?_cons_succ]
      have hts : (make_castime s).2.timestamp = s.timestamp := rfl
      have h := ih (make_castime s).2 (hts.trans ht) k2 (by omega)
      rw [hts] at h
      have hcnt : (make_castime s).2.cas_counter =
          (s.cas_counter + 1) % 2 ^ 32 := rfl
      rw [hcnt, add_assoc, Nat.mod_add_mod] at h
      rw [h]
      congr 3
      omega

/-- One step never decreases the stored timestamp: shared helper for the
    timestamp claims. -/
theorem ts_step_timestamp_mono (s : timestamping_state_t) (e : ts_event_t) :
    s.timestamp.time ≤ (ts_step s e).1.timestamp.time := by
  cases e with
  | make => exact le_refl _
  | set ts =>
    simp only [ts_step, set_timestamp, repli_timestamp_max]
    by_cases h : s.timestamp.time < ts.time <;> simp [h]
    omega

/-- Every castime handed out during a run is stamped with a timestamp no
    smaller than the timestamp at the start of the run: shared helper for
    the timestamp claims. -/
theorem ts_run_output_timestamp_lb (es : List ts_event_t) :
    ∀ s : timestamping_state_t,
    ∀ k ct, ((ts_run s es).2).get? k = some ct →
      s.timestamp.time ≤ ct.timestamp.time := by
  induction es with
  | nil =>
    intro s k ct hget
    simp [ts_run] at hget
  | cons e rest ih =>
    intro s k ct hget
    cases e with
    | make =>
      rw [ts_run_make_cons] at hget
      cases k with
      | zero =>
        rw [List.get?_cons_zero, Option.some.injEq] at hget
        rw [← hget]
        exact le_refl _
      | succ k2 =>
        rw [List.get?_cons_succ] at hget
        have hts : (make_castime s).2.timestamp = s.timestamp := rfl
        have h := ih (make_castime s).2 k2 ct hget
        rw [hts] at h
        exact h
    | set ts =>
      rw [ts_run_set_cons] at hget
      have h := ih (set_timestamp s ts) k ct hget
      exact le_trans (ts_step_timestamp_mono s (ts_event_t.set ts)) h

/-- C2: the stored timestamp is monotonically non-decreasing:
    `set_timestamp(ts)` with `ts` not above the current stamp leaves the
    state unchanged; `set_timestamp` computes `max(current, ts)`; and after
    `set_timestamp(ts)`, every castime handed out by a later
    `make_castime()` — across any further interleaving of calls — carries a
    timestamp component at least `ts`. -/
theorem set_timestamp_monotonic :
    (∀ (s : timestamping_state_t) (ts : repli_timestamp_t),
      ts.time ≤ s.timestamp.time → set_timestamp s ts = s) ∧
    (∀ (s : timestamping_state_t) (ts : repli_timestamp_t),
      (set_timestamp s ts).timestamp.time = max s.timestamp.time ts.time) ∧
    (∀ (s : timestamping_state_t) (ts : repli_timestamp_t)
        (es : List ts_event_t) (k : Nat) (ct : castime_t),
      ((ts_run (set_timestamp s ts) es).2).get? k = some ct →
      ts.time ≤ ct.timestamp.time) := by
  refine ⟨?_, ?_, ?_⟩
  · intro s ts h
    simp [set_timestamp, repli_timestamp_max, Nat.not_lt.mpr h]
  · intro s ts
    simp only [set_timestamp, repli_timestamp_max]
    by_cases h : s.timestamp.time < ts.time <;> simp [h] <;> omega
  · intro s ts es k ct hget
    have h1 : ts.time ≤ (set_timestamp s ts).timestamp.time := by
      simp only [set_timestamp, repli_timestamp_max]
      by_cases h : s.timestamp.time < ts.time <;> simp [h] <;> omega
    exact le_trans h1
      (ts_run_output_timestamp_lb es (set_timestamp s ts) k ct hget)

/-- C2 witness: lowering to 3 from stamp 5 is a no-op, and after advancing
    to 7 the next `make_castime` is stamped at least 7, via
    `set_timestamp_monotonic`. -/
theorem set_timestamp_monotonic_witness :
    set_timestamp ⟨0, ⟨5⟩⟩ ⟨3⟩ = ⟨0, ⟨5⟩⟩ ∧
    (7 : Nat) ≤ (castime_t.timestamp ⟨30064771073, ⟨7⟩⟩).time :=
  ⟨set_timestamp_monotonic.1 ⟨0, ⟨5⟩⟩ ⟨3⟩ (by norm_num),
   set_timestamp_monotonic.2.2 timestamping_init ⟨7⟩ [ts_event_t.make] 0
     ⟨30064771073, ⟨7⟩⟩ (by decide)⟩

/-- C1 (amended): any two `make_castime()` calls of the same instance within
    one node run whose call positions are fewer than `2 ^ 32` apart return
    distinct cas values — in particular even when the stored timestamp has
    not changed between them.  (The unamended claim, over arbitrary pairs of
    distinct positions, fails once the 32-bit counter wraps: see the
    counterexample at positions 0 and `2 ^ 32`.) -/
theorem make_castime_cas_unique (es : List ts_event_t) (k1 k2 : Nat)
    (c1 c2 : castime_t)
    (h1 : ((ts_run timestamping_init es).2).get? k1 = some c1)
    (h2 : ((ts_run timestamping_init es).2).get? k2 = some c2)
    (hlt : k1 < k2) (hgap : k2 - k1 < 2 ^ 32) :
    c1.proposed_cas ≠ c2.proposed_cas := by
  intro heq
  have e1 := ts_run_output_cas_mod es timestamping_init k1 c1 h1
  have e2 := ts_run_output_cas_mod es timestamping_init k2 c2 h2
  rw [heq] at e1
  have hmm : (timestamping_init.cas_counter + k1 + 1) % 2 ^ 32 =
      (timestamping_init.cas_counter + k2 + 1) % 2 ^ 32 := e1.symm.trans e2
  have hcc : timestamping_init.cas_counter = 0 := rfl
  rw [hcc] at hmm
  have h32 : (2:Nat) ^ 32 = 4294967296 := by norm_num
  rw [h32] at hmm hgap
  omega

/-- C1 witness: the first two `make_castime` calls of a run return cas 1 and
    cas 2, distinct, via `make_castime_cas_unique`. -/
theorem make_castime_cas_unique_witness :
    castime_t.proposed_cas ⟨1, ⟨0⟩⟩ ≠ castime_t.proposed_cas ⟨2, ⟨0⟩⟩ :=
  make_castime_cas_unique [ts_event_t.make, ts_event_t.make] 0 1
    ⟨1, ⟨0⟩⟩ ⟨2, ⟨0⟩⟩ (by decide) (by decide) (by norm_num) (by norm_num)

/-- C1 counterexample: in a run of `2 ^ 32 + 1` `make_castime()` calls with
    the stored timestamp never changing (it stays 0 throughout), the calls
    at the distinct positions 0 and `2 ^ 32` return the same cas value 1:
    the claim fails for arbitrary pairs of distinct call positions. -/
theorem make_castime_cas_unique_counterexample :
    ((ts_run timestamping_init
        (List.replicate (2 ^ 32 + 1) ts_event_t.make)).2).get? 0 =
      some ⟨1, ⟨0⟩⟩ ∧
    ((ts_run timestamping_init
        (List.replicate (2 ^ 32 + 1) ts_event_t.make)).2).get? (2 ^ 32) =
      some ⟨1, ⟨0⟩⟩ ∧
    (0 : Nat) ≠ 2 ^ 32 := by
  refine ⟨?_, ?_, by norm_num⟩
  · have h := ts_run_make_outputs (2 ^ 32 + 1) timestamping_init rfl 0
      (by norm_num)
    rw [h]
    norm_num [timestamping_init, repli_timestamp_t.distant_past]
  · have h := ts_run_make_outputs (2 ^ 32 + 1) timestamping_init rfl (2 ^ 32)
      (by norm_num)
    rw [h]
    norm_num [timestamping_init, repli_timestamp_t.distant_past]
